import Mathlib

/-
Verification of the Systemair ventilator accessory (src/index.js).

The source is a thin adapter between host characteristic calls and a
register-based device HTTP API.  We embed:

  * JavaScript values that can appear at a register key of a parsed
    response object (a number, a missing key, or a non-numeric value),
    with the comparison semantics the code relies on;
  * the HTTP requests the adapter builds (mwrite register value /
    mread register count), abstracting the URL string;
  * the retry loop retryRequest as a fuel-indexed recursion that also
    records how many attempts were made, how many one-second delays
    elapsed and how many failures were reported to the log;
  * each accessory operation (setActive, getActive, setRotationSpeed,
    getRotationSpeed, setRefresh, getTimer) as a function of a device
    behaviour, i.e. of the outcome each HTTP attempt would have.
-/

/-- A JavaScript value found at a register key of a parsed read response:
a number, the result of a missing key (undefined), or a value that does
not coerce to a number (comparisons with numbers are then false, as with
NaN). -/
inductive JSVal
  | num (n : Int)
  | undef
  | nonNumeric
deriving DecidableEq, Repr

/-- JavaScript comparison v < b against a number: false unless v is a
number (undefined and non-numeric values compare like NaN). -/
def JSVal.ltNum : JSVal → Int → Bool
  | .num a, b => decide (a < b)
  | .undef, _ => false
  | .nonNumeric, _ => false

/-- JavaScript comparison v > b against a number: false unless v is a
number. -/
def JSVal.gtNum : JSVal → Int → Bool
  | .num a, b => decide (b < a)
  | .undef, _ => false
  | .nonNumeric, _ => false

/-- An HTTP request the adapter builds: a register write
(GET /mwrite with a register/value pair in the URL) or a register read
(GET /mread with a register/count pair in the URL). -/
inductive Request
  | mwrite (register : Nat) (value : Int)
  | mread (register : Nat) (count : Nat)
deriving DecidableEq, Repr

/-- The outcome of one axios attempt for a request: the transport either
delivers a response whose data maps the register key to a JSVal, or
fails with an error message. -/
abbrev Attempt (α : Type) := Nat → Except String α

/-- How one call of retryRequest ended: a successful return of the
response, a rethrow of the last error on the final attempt, or the loop
running zero iterations (retries = 0, the function returns undefined;
unreachable at the call sites, which all use the default retries = 3). -/
inductive RetryResult (α : Type)
  | success (a : α)
  | failure (e : String)
  | fellThrough
deriving Repr

/-- The observable trace of one retryRequest call: its result, the
number of attempts made, the number of fixed one-second delays awaited,
and the number of failures reported to the log. -/
structure RetryTrace (α : Type) where
  result : RetryResult α
  attempts : Nat
  delays : Nat
  logged : Nat
deriving Repr

/-- The loop of retryRequest.  fuel is the number of remaining
iterations (retries - i), i the current attempt index, delays and
logged the counters accumulated so far.  Each iteration tries attempt
i; success returns immediately; a failure on the last iteration
(i = retries - 1) is logged and rethrown; any other failure is logged
and followed by a one-second delay before the next iteration. -/
def retryRequestGo (attempt : Attempt α) (retries : Nat) :
    Nat → Nat → Nat → Nat → RetryTrace α
  | 0, i, delays, logged => ⟨.fellThrough, i, delays, logged⟩
  | fuel + 1, i, delays, logged =>
    match attempt i with
    | .ok a => ⟨.success a, i + 1, delays, logged⟩
    | .error e =>
      if i = retries - 1 then
        ⟨.failure e, i + 1, delays, logged + 1⟩
      else
        retryRequestGo attempt retries fuel (i + 1) (delays + 1) (logged + 1)

/-- retryRequest(url, retries): run the loop from i = 0.  Every call
site in the source uses the default retries = 3. -/
def retryRequest (attempt : Attempt α) (retries : Nat) : RetryTrace α :=
  retryRequestGo attempt retries retries 0 0 0

/-- A device behaviour: for each request, the outcome of each attempt
(attempts are indexed from 0).  For reads the payload is the value the
response data holds at the requested register key; writes ignore the
payload. -/
abbrev Device := Request → Attempt JSVal

/-- One awaited retryRequest call of an accessory operation, with the
default retries = 3. -/
def runRequest (device : Device) (req : Request) : RetryTrace JSVal :=
  retryRequest (device req) 3

/-- The write setActive builds: register 1130 gets 1 when the value is
truthy (ON) and 0 otherwise. -/
def setActiveRequest (value : Bool) : Request :=
  .mwrite 1130 (if value then 1 else 0)

/-- setActive(value): awaits the retried write; an exhausted retry
rethrows to the caller.  (A fellThrough result would be awaited as
undefined and the operation would complete; it cannot occur with
retries = 3.) -/
def setActive (device : Device) (value : Bool) : Except String Unit :=
  match (runRequest device (setActiveRequest value)).result with
  | .success _ => .ok ()
  | .failure e => .error e
  | .fellThrough => .ok ()

/-- The read getActive builds: register 1130, count 1. -/
def getActiveRequest : Request := .mread 1130 1

/-- getActive(): awaits the retried read and returns 1 when
response.data at key 1130 is > 0, else 0; an exhausted retry rethrows.
(On fellThrough the response is undefined and reading its data field
throws a TypeError; it cannot occur with retries = 3.) -/
def getActive (device : Device) : Except String Int :=
  match (runRequest device getActiveRequest).result with
  | .success v => .ok (if v.gtNum 0 then 1 else 0)
  | .failure e => .error e
  | .fellThrough => .error "TypeError"

/-- The percent-to-device-level bucketing of setRotationSpeed:
0 stays 0, values up to 34 become level 2, values up to 57 become
level 3, everything else becomes level 4. -/
def setRotationSpeedLevel (value : Int) : Int :=
  if value = 0 then 0
  else if value ≤ 34 then 2
  else if value ≤ 57 then 3
  else 4

/-- The write setRotationSpeed builds: register 1130 gets the bucketed
level. -/
def setRotationSpeedRequest (value : Int) : Request :=
  .mwrite 1130 (setRotationSpeedLevel value)

/-- setRotationSpeed(value): awaits the retried write of the bucketed
level; an exhausted retry rethrows. -/
def setRotationSpeed (device : Device) (value : Int) : Except String Unit :=
  match (runRequest device (setRotationSpeedRequest value)).result with
  | .success _ => .ok ()
  | .failure e => .error e
  | .fellThrough => .ok ()

/-- The read getRotationSpeed builds: register 1130, count 1. -/
def getRotationSpeedRequest : Request := .mread 1130 1

/-- The device-level-to-percent mapping of getRotationSpeed, using
strict equality: 2 gives 25, 3 gives 45, 4 gives 70, anything else 0. -/
def getRotationSpeedPercent (speed : JSVal) : Int :=
  if speed = .num 2 then 25
  else if speed = .num 3 then 45
  else if speed = .num 4 then 70
  else 0

/-- getRotationSpeed(): awaits the retried read and maps the value at
key 1130 back to a percentage; an exhausted retry rethrows. -/
def getRotationSpeed (device : Device) : Except String Int :=
  match (runRequest device getRotationSpeedRequest).result with
  | .success v => .ok (getRotationSpeedPercent v)
  | .failure e => .error e
  | .fellThrough => .error "TypeError"

/-- The write setRefresh builds when triggered: register 1161 gets the
fixed value 4. -/
def refreshRequest : Request := .mwrite 1161 4

/-- The observable trace of one setRefresh call: its outcome, the
device requests it issued (each one a retried call), and the
setTimeout callbacks it scheduled, as pairs of delay in milliseconds
and the value the callback writes back to the switch characteristic. -/
structure RefreshTrace where
  result : Except String Unit
  requests : List Request
  scheduled : List (Nat × Bool)
deriving Repr

/-- setRefresh(value): a falsy value returns at once with no request.
Otherwise the retried write of refreshRequest is awaited: if it
rethrows, the error propagates and nothing is scheduled; after it
succeeds, one non-awaited setTimeout callback is scheduled to reset
the switch characteristic to false after 1000 ms. -/
def setRefresh (device : Device) (value : Bool) : RefreshTrace :=
  if !value then ⟨.ok (), [], []⟩
  else
    match (runRequest device refreshRequest).result with
    | .success _ => ⟨.ok (), [refreshRequest], [(1000, false)]⟩
    | .failure e => ⟨.error e, [refreshRequest], []⟩
    | .fellThrough => ⟨.ok (), [refreshRequest], [(1000, false)]⟩

/-- The read getTimer builds: register 1110, count 2. -/
def getTimerRequest : Request := .mread 1110 2

/-- The clamping getTimer applies to the extracted timer value:
values < 0 become 0, values > 100 become 100, anything else (numbers
in range, but also undefined or non-numeric values, for which both
comparisons are false) is returned unchanged. -/
def clampTimerValue (timerValue : JSVal) : JSVal :=
  if timerValue.ltNum 0 then .num 0
  else if timerValue.gtNum 100 then .num 100
  else timerValue

/-- getTimer(): awaits the retried read inside a try block and clamps
the value extracted at key 1110; any error (an exhausted retry, or the
TypeError a fellThrough would cause) is caught and 0 is returned. -/
def getTimer (device : Device) : JSVal :=
  match (runRequest device getTimerRequest).result with
  | .success v => clampTimerValue v
  | .failure _ => .num 0
  | .fellThrough => .num 0

/-- The loop makes at most one attempt per unit of fuel. -/
lemma retryRequestGo_attempts_le (attempt : Attempt α) (retries : Nat) :
    ∀ fuel i delays logged,
      (retryRequestGo attempt retries fuel i delays logged).attempts ≤ i + fuel := by
  intro fuel
  induction fuel with
  | zero => intro i d l; simp [retryRequestGo]
  | succ n ih =>
    intro i d l
    simp only [retryRequestGo]
    cases hx : attempt i with
    | ok a => simp
    | error e =>
      by_cases hi : i = retries - 1
      · simp [hi]
      · simp only [hi, if_false]
        have := ih (i + 1) (d + 1) (l + 1)
        omega

/-- With the default budget of 3, a first attempt that succeeds is
returned with no delay and nothing logged. -/
lemma retry3_first_ok (attempt : Attempt α) (a : α) (h : attempt 0 = .ok a) :
    retryRequest attempt 3 = ⟨.success a, 1, 0, 0⟩ := by
  simp [retryRequest, retryRequestGo, h]

/-- With the default budget of 3, failures on attempts 0 and 1 followed
by a success on attempt 2 return that success after 2 delays, with 2
failures logged and 3 attempts made. -/
lemma retry3_third_ok (attempt : Attempt α) (e0 e1 : String) (a : α)
    (h0 : attempt 0 = .error e0) (h1 : attempt 1 = .error e1)
    (h2 : attempt 2 = .ok a) :
    retryRequest attempt 3 = ⟨.success a, 3, 2, 2⟩ := by
  simp [retryRequest, retryRequestGo, h0, h1, h2]

/-- With the default budget of 3, failures on all three attempts
rethrow the last error after 2 delays, with 3 failures logged and 3
attempts made. -/
lemma retry3_all_fail (attempt : Attempt α) (e0 e1 e2 : String)
    (h0 : attempt 0 = .error e0) (h1 : attempt 1 = .error e1)
    (h2 : attempt 2 = .error e2) :
    retryRequest attempt 3 = ⟨.failure e2, 3, 2, 3⟩ := by
  simp [retryRequest, retryRequestGo, h0, h1, h2]

/-- An operation whose first attempt at its request succeeds sees that
response. -/
lemma runRequest_first_ok (device : Device) (req : Request) (v : JSVal)
    (h : device req 0 = .ok v) :
    runRequest device req = ⟨.success v, 1, 0, 0⟩ :=
  retry3_first_ok (device req) v h

/-- An operation all three of whose attempts fail sees the last error
rethrown. -/
lemma runRequest_all_fail (device : Device) (req : Request) (es : Nat → String)
    (h : ∀ i, device req i = .error (es i)) :
    runRequest device req = ⟨.failure (es 2), 3, 2, 3⟩ :=
  retry3_all_fail (device req) (es 0) (es 1) (es 2) (h 0) (h 1) (h 2)

/-- C1: for every percent p in [0,100], SetRotationSpeed(p) issues a
write of register 1130 carrying level 0 if p = 0, level 2 if
1 ≤ p ≤ 34, level 3 if 35 ≤ p ≤ 57 and level 4 if 58 ≤ p ≤ 100; in
particular exactly 34 maps to level 2 and exactly 57 to level 3. -/
theorem setRotationSpeed_bucket_mapping (p : Int) (hlo : 0 ≤ p) (hhi : p ≤ 100) :
    setRotationSpeedRequest p = Request.mwrite 1130 (setRotationSpeedLevel p) ∧
    (p = 0 → setRotationSpeedLevel p = 0) ∧
    (1 ≤ p → p ≤ 34 → setRotationSpeedLevel p = 2) ∧
    (35 ≤ p → p ≤ 57 → setRotationSpeedLevel p = 3) ∧
    (58 ≤ p → setRotationSpeedLevel p = 4) ∧
    setRotationSpeedLevel 34 = 2 ∧
    setRotationSpeedLevel 57 = 3 := by
  refine ⟨rfl, ?_, ?_, ?_, ?_, by decide, by decide⟩ <;>
    (intros; simp only [setRotationSpeedLevel]; split_ifs <;> omega)

theorem setRotationSpeed_bucket_mapping_witness :
    (0 : Int) ≤ 34 ∧ (34 : Int) ≤ 100 ∧ setRotationSpeedLevel 34 = 2 :=
  ⟨by decide, by decide,
    (setRotationSpeed_bucket_mapping 34 (by decide) (by decide)).2.2.2.2.2.1⟩

/-- C2: for every device value v read for register 1130,
GetRotationSpeed returns 25 if v = 2, 45 if v = 3, 70 if v = 4 and 0
for every other value (including 0, 1 and any unrecognized value). -/
theorem getRotationSpeed_inverse_mapping (device : Device) (v : JSVal)
    (h : device getRotationSpeedRequest 0 = .ok v) :
    (v = .num 2 → getRotationSpeed device = .ok 25) ∧
    (v = .num 3 → getRotationSpeed device = .ok 45) ∧
    (v = .num 4 → getRotationSpeed device = .ok 70) ∧
    (v ≠ .num 2 → v ≠ .num 3 → v ≠ .num 4 → getRotationSpeed device = .ok 0) ∧
    getRotationSpeedPercent (.num 0) = 0 ∧
    getRotationSpeedPercent (.num 1) = 0 := by
  have hr := runRequest_first_ok device getRotationSpeedRequest v h
  refine ⟨fun hv => ?_, fun hv => ?_, fun hv => ?_, fun h2 h3 h4 => ?_,
    by decide, by decide⟩
  · subst hv; simp [getRotationSpeed, hr, getRotationSpeedPercent]
  · subst hv; simp [getRotationSpeed, hr, getRotationSpeedPercent]
  · subst hv; simp [getRotationSpeed, hr, getRotationSpeedPercent]
  · simp [getRotationSpeed, hr, getRotationSpeedPercent, h2, h3, h4]

theorem getRotationSpeed_inverse_mapping_witness :
    getRotationSpeed (fun _ _ => Except.ok (JSVal.num 2)) = .ok 25 :=
  (getRotationSpeed_inverse_mapping (fun _ _ => Except.ok (JSVal.num 2))
    (.num 2) rfl).1 rfl

/-- C4: for every integer raw value v read for register 1110, GetTimer
returns v clamped into [0,100]: 0 if v < 0, v if 0 ≤ v ≤ 100 and 100
if v > 100; in particular -50, 0, 50, 100, 150 map to 0, 0, 50, 100,
100 respectively. -/
theorem getTimer_clamping (device : Device) (v : Int)
    (h : device getTimerRequest 0 = .ok (.num v)) :
    getTimer device = clampTimerValue (.num v) ∧
    (v < 0 → clampTimerValue (.num v) = .num 0) ∧
    (0 ≤ v → v ≤ 100 → clampTimerValue (.num v) = .num v) ∧
    (100 < v → clampTimerValue (.num v) = .num 100) ∧
    clampTimerValue (.num (-50)) = .num 0 ∧
    clampTimerValue (.num 0) = .num 0 ∧
    clampTimerValue (.num 50) = .num 50 ∧
    clampTimerValue (.num 100) = .num 100 ∧
    clampTimerValue (.num 150) = .num 100 := by
  have hr := runRequest_first_ok device getTimerRequest (.num v) h
  refine ⟨by simp [getTimer, hr], ?_, ?_, ?_,
    by decide, by decide, by decide, by decide, by decide⟩ <;>
    (intros
     simp only [clampTimerValue, JSVal.ltNum, JSVal.gtNum, decide_eq_true_eq]
     split_ifs <;> first | rfl | omega)

theorem getTimer_clamping_witness :
    getTimer (fun _ _ => Except.ok (JSVal.num 150)) = clampTimerValue (.num 150) :=
  (getTimer_clamping (fun _ _ => Except.ok (JSVal.num 150)) 150 rfl).1

/-- C7: for every integer device value v read for register 1130,
GetActive reports on (1) iff v is strictly greater than 0; v = 0 and
every negative value read as off (0). -/
theorem getActive_strictly_positive (device : Device) (v : Int)
    (h : device getActiveRequest 0 = .ok (.num v)) :
    (getActive device = .ok 1 ↔ 0 < v) ∧
    (getActive device = .ok 0 ↔ v ≤ 0) := by
  have hr := runRequest_first_ok device getActiveRequest (.num v) h
  simp only [getActive, hr, JSVal.gtNum, decide_eq_true_eq]
  by_cases hv : 0 < v
  all_goals simp [hv]
  all_goals omega

theorem getActive_strictly_positive_witness :
    getActive (fun _ _ => Except.ok (JSVal.num 3)) = .ok 1 :=
  (getActive_strictly_positive (fun _ _ => Except.ok (JSVal.num 3)) 3 rfl).1.mpr
    (by decide)

/-- C3: a Device Client call makes at most 3 attempts; if attempts 1
and 2 fail and attempt 3 succeeds, the success is returned after
exactly two one-second delays (with both failures logged); if all 3
attempts fail, the call rethrows the underlying transport error of the
last attempt after two delays, with every failure logged. -/
theorem retryRequest_budget (attempt : Attempt α) :
    (retryRequest attempt 3).attempts ≤ 3 ∧
    (∀ e0 e1 a, attempt 0 = .error e0 → attempt 1 = .error e1 →
      attempt 2 = .ok a →
      retryRequest attempt 3 = ⟨.success a, 3, 2, 2⟩) ∧
    (∀ e0 e1 e2, attempt 0 = .error e0 → attempt 1 = .error e1 →
      attempt 2 = .error e2 →
      retryRequest attempt 3 = ⟨.failure e2, 3, 2, 3⟩) :=
  ⟨retryRequestGo_attempts_le attempt 3 3 0 0 0,
   fun e0 e1 a h0 h1 h2 => retry3_third_ok attempt e0 e1 a h0 h1 h2,
   fun e0 e1 e2 h0 h1 h2 => retry3_all_fail attempt e0 e1 e2 h0 h1 h2⟩

theorem retryRequest_budget_witness :
    retryRequest (fun i => if i < 2 then Except.error "down" else Except.ok (5 : Int)) 3 =
      ⟨.success 5, 3, 2, 2⟩ :=
  (retryRequest_budget (fun i => if i < 2 then Except.error "down" else Except.ok (5 : Int))).2.1
    "down" "down" 5 rfl rfl rfl

/-- C5: when all retry attempts are exhausted, GetTimer catches the
failure and returns 0 instead of propagating it, while SetActive,
GetActive, SetRotationSpeed, SetRefresh(true) and GetRotationSpeed all
propagate the failure (carrying the last transport error) to the
caller. -/
theorem exhausted_retry_policy (device : Device) (es : Nat → String)
    (h : ∀ req i, device req i = .error (es i)) :
    setActive device true = .error (es 2) ∧
    setActive device false = .error (es 2) ∧
    getActive device = .error (es 2) ∧
    (∀ p, setRotationSpeed device p = .error (es 2)) ∧
    getRotationSpeed device = .error (es 2) ∧
    (setRefresh device true).result = .error (es 2) ∧
    getTimer device = .num 0 := by
  refine ⟨?_, ?_, ?_, fun p => ?_, ?_, ?_, ?_⟩ <;>
    simp [setActive, getActive, setRotationSpeed, getRotationSpeed,
      setRefresh, getTimer,
      runRequest_all_fail device _ es (fun i => h _ i)]

theorem exhausted_retry_policy_witness :
    getTimer (fun _ _ => Except.error "down") = .num 0 :=
  (exhausted_retry_policy (fun _ _ => Except.error "down") (fun _ => "down")
    (fun _ _ => rfl)).2.2.2.2.2.2

/-- C6: SetRefresh(false) issues zero device requests, schedules
nothing and returns without error; SetRefresh(true) issues exactly one
write of register 1161 with value 4 and, once that write succeeds,
schedules exactly one reset of the switch to false after a 1000 ms
delay. -/
theorem setRefresh_effects (device : Device) :
    setRefresh device false = ⟨.ok (), [], []⟩ ∧
    (setRefresh device true).requests = [Request.mwrite 1161 4] ∧
    (∀ v, (runRequest device refreshRequest).result = .success v →
      setRefresh device true =
        ⟨.ok (), [Request.mwrite 1161 4], [(1000, false)]⟩) := by
  refine ⟨rfl, ?_, fun v hv => ?_⟩
  · simp only [setRefresh, refreshRequest, Bool.not_true, Bool.false_eq_true,
      if_false]
    cases (runRequest device (.mwrite 1161 4)).result <;> rfl
  · simp [setRefresh, hv]
    rfl

theorem setRefresh_effects_witness :
    setRefresh (fun _ _ => Except.ok (JSVal.num 4)) true =
      ⟨.ok (), [Request.mwrite 1161 4], [(1000, false)]⟩ :=
  (setRefresh_effects (fun _ _ => Except.ok (JSVal.num 4))).2.2
    (.num 4) rfl

/-- C8: for every percent p in [0,100], writing p and reading the
faithfully stored level back yields one of exactly 0, 25, 45, 70; the
quantization is idempotent (re-writing the read-back percent writes
the same device level), and 70 round-trips exactly to 70. -/
theorem rotationSpeed_roundtrip (p : Int) (hlo : 0 ≤ p) (hhi : p ≤ 100) :
    getRotationSpeedPercent (.num (setRotationSpeedLevel p)) ∈
      ([0, 25, 45, 70] : List Int) ∧
    setRotationSpeedLevel (getRotationSpeedPercent (.num (setRotationSpeedLevel p))) =
      setRotationSpeedLevel p ∧
    getRotationSpeedPercent (.num (setRotationSpeedLevel 70)) = 70 := by
  refine ⟨?_, ?_, by decide⟩ <;>
    (simp only [setRotationSpeedLevel, getRotationSpeedPercent]
     split_ifs <;> simp_all)

theorem rotationSpeed_roundtrip_witness :
    (0 : Int) ≤ 70 ∧ (70 : Int) ≤ 100 ∧
      getRotationSpeedPercent (.num (setRotationSpeedLevel 70)) = 70 :=
  ⟨by decide, by decide, (rotationSpeed_roundtrip 70 (by decide) (by decide)).2.2⟩

/-- C9: SetActive(on) writes register 1130 with value 1 and
SetActive(off) writes it with value 0; since 1 is none of the levels
2, 3, 4 recognized by GetRotationSpeed, a read performed after
SetActive(on) on a device that faithfully stored the written 1 returns
0 percent. -/
theorem setActive_rotation_interaction (device : Device)
    (h : device getRotationSpeedRequest 0 = .ok (.num 1)) :
    setActiveRequest true = Request.mwrite 1130 1 ∧
    setActiveRequest false = Request.mwrite 1130 0 ∧
    getRotationSpeedPercent (.num 1) = 0 ∧
    getRotationSpeed device = .ok 0 := by
  have hr := runRequest_first_ok device getRotationSpeedRequest (.num 1) h
  exact ⟨rfl, rfl, by decide, by simp [getRotationSpeed, hr, getRotationSpeedPercent]⟩

theorem setActive_rotation_interaction_witness :
    getRotationSpeed (fun _ _ => Except.ok (JSVal.num 1)) = .ok 0 :=
  (setActive_rotation_interaction (fun _ _ => Except.ok (JSVal.num 1)) rfl).2.2.2

/-- C10: when the read response for GetTimer does not map the key 1110
to a number (missing key, hence undefined, or a non-numeric value),
both clamping comparisons are false and GetTimer returns the raw
extracted value unchanged, which is not a number in [0,100]; the
clamping invariant holds only when the response maps the key to an
integer. -/
theorem getTimer_nonnumeric_passthrough (device : Device) (v : JSVal)
    (hv : v = .undef ∨ v = .nonNumeric)
    (h : device getTimerRequest 0 = .ok v) :
    v.ltNum 0 = false ∧
    v.gtNum 100 = false ∧
    getTimer device = v ∧
    (∀ n : Int, 0 ≤ n → n ≤ 100 → getTimer device ≠ .num n) := by
  have hr := runRequest_first_ok device getTimerRequest v h
  rcases hv with hv | hv <;> subst hv <;>
    exact ⟨rfl, rfl, by simp [getTimer, hr, clampTimerValue, JSVal.ltNum, JSVal.gtNum],
      by simp [getTimer, hr, clampTimerValue, JSVal.ltNum, JSVal.gtNum]⟩

theorem getTimer_nonnumeric_passthrough_witness :
    getTimer (fun _ _ => Except.ok JSVal.undef) = JSVal.undef :=
  (getTimer_nonnumeric_passthrough (fun _ _ => Except.ok JSVal.undef)
    .undef (Or.inl rfl) rfl).2.2.1
